import Mathlib

/-!
Verification development for the baby_bob review dashboard.

The embedding models the approval-workflow state machine and the
diff-comparison engine of the repository:

* the master config table (`Row`, `Store`) as used by `src/utils.py`,
  `src/sample_data.py` (dual-reviewer schema, per-user approval columns)
  and by `src/utils/db_utils.py`, `src/refresh_2024.py` (single-flag
  schema, one approval column per stage);
* the session-level flag updates (`update_approval_status`), the store
  persistence (`save_master_config_df`), the store-level update
  (`update_experiment_approval`), the read helpers
  (`check_both_approved`, `get_config_for_experiment`) and the summary
  aggregator (`create_summary_dataframe`) of `src/utils.py`;
* the comparison engine of `src/app.py` / `src/utils.py`
  (`create_comparison_dataframe`, `rows_with_diffs`, nested drill-down);
* the stage gating of the 2024 Refresh page (`src/refresh_2024.py`),
  as the set of stage actions the page offers for an experiment.

Machine state held in `st.session_state` is passed explicitly; functions
that mutate the session DataFrame return the new table.  Randomness in
the demo config generator (`np.random` draws in `helper_function`) is
passed in as explicit arguments.
-/

namespace BabyBob

/-- A value of a configuration mapping as produced by `helper_function`
and the official-book configs in `src/app.py`: a string, an integer, a
decimal number (modelled by its Python `str` display, e.g. `"2.0"`), or
a nested mapping (Python `dict`). -/
inductive ConfigValue where
  | vstr (s : String)
  | vint (n : Int)
  | vnum (s : String)
  | vdict (entries : List (String × ConfigValue))

/-- A configuration: an ordered mapping from parameter key to value
(a Python `dict`, insertion ordered, keys unique). -/
abbrev Config := List (String × ConfigValue)

mutual

/-- Python `repr` of a config value (used inside the `str` form of a
dict, where Python shows elements with `repr`). -/
def pyRepr : ConfigValue → String
  | ConfigValue.vstr s => "\x27" ++ s ++ "\x27"
  | ConfigValue.vint n => toString n
  | ConfigValue.vnum s => s
  | ConfigValue.vdict es => "\x7b" ++ pyReprEntries es ++ "\x7d"

/-- Python `repr` of the comma-separated entries of a dict. -/
def pyReprEntries : List (String × ConfigValue) → String
  | [] => ""
  | [(k, v)] => "\x27" ++ k ++ "\x27: " ++ pyRepr v
  | (k, v) :: rest => "\x27" ++ k ++ "\x27: " ++ pyRepr v ++ ", " ++ pyReprEntries rest

end

/-- Python `str` of a config value, the canonical display string the
diff engine compares with (`str(val)` in `rows_with_diffs`). -/
def pyStr : ConfigValue → String
  | ConfigValue.vstr s => s
  | v => pyRepr v

/-- Python `str.capitalize()`: first character upper-cased, the rest
lower-cased (used for the status messages of `update_approval_status`). -/
def pyCapitalize (s : String) : String :=
  match s.data with
  | [] => ""
  | c :: rest => String.mk (c.toUpper :: rest.map Char.toLower)

/-- Lookup in a Python dict modelled as an ordered association list
(`config.get(key)` / `d[key]`). -/
def dictGet (d : Config) (k : String) : Option ConfigValue :=
  (d.find? (fun p => p.1 == k)).map Prod.snd

/-- Assignment `d[k] = v` on a Python dict: replaces the value of an
existing key in place, otherwise appends the key at the end. -/
def dictSet (d : Config) (k : String) (v : ConfigValue) : Config :=
  match d with
  | [] => [(k, v)]
  | p :: rest => if p.1 == k then (k, v) :: rest else p :: dictSet rest k v

/-- Python `dict.update`: assigns each entry of `upds` in order. -/
def dictUpdate (d : Config) (upds : Config) : Config :=
  upds.foldl (fun acc p => dictSet acc p.1 p.2) d

/-- One row of the master config table.  Identification and workflow
fields are explicit; the boolean approval columns are an association
list keyed by their full column name (`is_approved_config_sydney`, …,
or `is_approved_config`, … in the single-flag schema), matching how the
source addresses them by computed column-name strings.  Demo columns not
read by the modelled operations are omitted. -/
structure Row where
  experiment : String
  implementation : String
  univ : String
  frontier : String
  backtest_name_2024 : String
  backtest_user_2024 : String
  is_backtest_complete : Bool
  approvals : List (String × Bool)
deriving DecidableEq

/-- The master config table (`master_config_df` / the `master_config`
SQLite table): a list of rows. -/
abbrev Store := List Row

/-- Value of an approval column of a row, `none` when the column is
absent.  (A well formed store carries all stage columns of its schema;
the source would raise `KeyError` on a missing column.) -/
def getFlag (r : Row) (col : String) : Option Bool :=
  (r.approvals.find? (fun p => p.1 == col)).map Prod.snd

/-- Value of an approval column, defaulting to `false` when absent. -/
def flagD (r : Row) (col : String) : Bool :=
  (getFlag r col).getD false

/-- Column assignment on the association list: replaces the first entry
with the given key in place, otherwise appends the column (a DataFrame
`loc` assignment to a fresh column name creates the column). -/
def setEntry : List (String × Bool) → String → Bool → List (String × Bool)
  | [], col, b => [(col, b)]
  | p :: rest, col, b => if p.1 == col then (col, b) :: rest else p :: setEntry rest col b

/-- Sets one approval column of a row. -/
def setFlag (r : Row) (col : String) (b : Bool) : Row :=
  { r with approvals := setEntry r.approvals col b }

/-- Row predicate of the `(experiment == exp) & (implementation == impl)`
masks used throughout `src/utils.py`. -/
def rowMatches (r : Row) (exp impl : String) : Bool :=
  r.experiment == exp && r.implementation == impl

/-- First row of the table matching an (experiment, implementation)
pair: `df[(df.experiment == exp) & (df.implementation == impl)]` followed
by `.iloc[0]`, as an `Option` for the empty case. -/
def firstMatch (df : Store) (exp impl : String) : Option Row :=
  (df.filter (fun r => rowMatches r exp impl)).head?

/-- Name of a dual-reviewer approval column,
`f"is_approved_{approval_type}_{user}"` (`src/utils.py`). -/
def approvalColumn (approval_type user : String) : String :=
  "is_approved_" ++ approval_type ++ "_" ++ user

/-- Embeds `update_approval_status` of `src/utils.py` (lines 32-59): sets
the column `is_approved_{approval_type}_{user}` to `approve` on every row
matching the (experiment, implementation) mask of the session DataFrame,
and returns the status message.  No precondition of the approval pipeline
is checked.  Persistence is modelled separately
(`update_approval_status_full`). -/
def update_approval_status (df : Store) (experiment implementation user approval_type : String)
    (approve : Bool) : Store × String :=
  (df.map (fun r =>
      if rowMatches r experiment implementation
      then setFlag r (approvalColumn approval_type user) approve
      else r),
   pyCapitalize approval_type ++ " " ++ (if approve then "approved" else "revoked")
     ++ " by " ++ user ++ " for " ++ experiment ++ " - " ++ implementation)

/-- Embeds `save_master_config_df` (`src/sample_data.py` lines 87-95:
`pickle.dump` of the whole DataFrame over the file; equally
`src/utils/db_utils.py` lines 173-212: `DELETE FROM master_config`
followed by inserting the whole DataFrame).  The persisted store after
saving `df`, given the store's previous contents: the previous contents
are discarded entirely. -/
def save_master_config_df (df : Store) (_persist : Store) : Store :=
  df

/-- One session-level flag update including its persistence, as performed
by `update_approval_status` in `src/utils.py`: mutate the session
DataFrame, then save it over the store.  Returns (new session DataFrame,
new persisted store, status message). -/
def update_approval_status_full (sess persist : Store)
    (experiment implementation user approval_type : String) (approve : Bool) :
    Store × Store × String :=
  let res := update_approval_status sess experiment implementation user approval_type approve
  (res.1, save_master_config_df res.1 persist, res.2)

/-- Embeds `check_both_approved` of `src/utils.py` (lines 135-155): false
when no row matches, otherwise the conjunction of the two per-reviewer
columns of the first matching row. -/
def check_both_approved (df : Store) (exp impl approval_type : String) : Bool :=
  match firstMatch df exp impl with
  | none => false
  | some r => flagD r (approvalColumn approval_type "sydney")
      && flagD r (approvalColumn approval_type "joey")

/-- Embeds `helper_function` of `src/utils.py` (lines 61-98), the demo
config generator.  The `np.random` draws are explicit arguments: the
random `version` and the optional `advanced_params` nested dict (added
with 50% probability in the source). -/
def helper_function (backtest_name backtest_user : String) (version : Int)
    (advanced_params : Option Config) : Config :=
  let config : Config := [
    ("strategy", ConfigValue.vstr ("Strategy_" ++ backtest_name)),
    ("timeframe", ConfigValue.vstr "1h"),
    ("start_date", ConfigValue.vstr "2023-01-01"),
    ("end_date", ConfigValue.vstr "2023-12-31"),
    ("initial_capital", ConfigValue.vint 10000),
    ("risk_percent", ConfigValue.vnum "2.0"),
    ("max_open_trades", ConfigValue.vint 5),
    ("leverage", ConfigValue.vnum "1.0"),
    ("user", ConfigValue.vstr backtest_user),
    ("created_at", ConfigValue.vstr "2024-01-15"),
    ("version", ConfigValue.vint version)]
  match advanced_params with
  | none => config
  | some es => config ++ [("advanced_params", ConfigValue.vdict es)]

/-- Embeds `get_config_for_experiment` of `src/utils.py` (lines 157-190):
an empty dict when no row matches, otherwise a generated config updated
with the unit's identification fields.  The random draws of
`helper_function` are passed through. -/
def get_config_for_experiment (df : Store) (exp impl : String) (version : Int)
    (advanced_params : Option Config) : Config :=
  match firstMatch df exp impl with
  | none => []
  | some row =>
    let config := helper_function row.backtest_name_2024 row.backtest_user_2024
      version advanced_params
    dictUpdate config [
      ("experiment", ConfigValue.vstr exp),
      ("implementation", ConfigValue.vstr impl),
      ("universe", ConfigValue.vstr row.univ),
      ("frontier", ConfigValue.vstr row.frontier)]

/-- The `is_backtest_complete` flag of the first row matching a unit
(`impl_df["is_backtest_complete"].iloc[0]` in `create_summary_dataframe`);
false when no row matches. -/
def unit_backtest_complete (df : Store) (exp impl : String) : Bool :=
  match firstMatch df exp impl with
  | none => false
  | some r => r.is_backtest_complete

/-- First-appearance deduplication, the order `pandas.Series.unique`
returns values in. -/
def uniqueFirst (l : List String) : List String :=
  l.foldl (fun acc x => if acc.contains x then acc else acc ++ [x]) []

/-- One row of the summary DataFrame built by `create_summary_dataframe`
(`src/utils.py` lines 305-355); the four approval cells hold the
rendered check-mark strings, as in the source. -/
structure SummaryRow where
  experiment : String
  implementation : String
  universeTag : String
  config_approved : String
  backtest_complete : String
  comparison_approved : String
  final_approved : String
  status : String
deriving DecidableEq

/-- Check-mark rendering of a boolean in the summary table. -/
def checkMark (b : Bool) : String :=
  if b then "✅" else "❌"

/-- Embeds `create_summary_dataframe` of `src/utils.py` (lines 305-355):
for each unique experiment and each unique implementation within it,
derives the four stage flags and the overall status by the first-match
priority cascade of lines 330-339. -/
def create_summary_dataframe (df : Store) : List SummaryRow :=
  (uniqueFirst (df.map (fun r => r.experiment))).flatMap (fun experiment =>
    let exp_df := df.filter (fun r => r.experiment == experiment)
    (uniqueFirst (exp_df.map (fun r => r.implementation))).filterMap (fun impl =>
      match (exp_df.filter (fun r => r.implementation == impl)).head? with
      | none => none
      | some r0 =>
        let config_approved := check_both_approved df experiment impl "config"
        let backtest_complete := r0.is_backtest_complete
        let comparison_approved := check_both_approved df experiment impl "comparison"
        let final_approved := check_both_approved df experiment impl "final_summary"
        let overall_status :=
          if final_approved then "Complete"
          else if comparison_approved then "Final Review Needed"
          else if backtest_complete then "Comparison Review Needed"
          else if config_approved then "Backtest Needed"
          else "Config Review Needed"
        some { experiment := experiment, implementation := impl, universeTag := r0.univ,
               config_approved := checkMark config_approved,
               backtest_complete := checkMark backtest_complete,
               comparison_approved := checkMark comparison_approved,
               final_approved := checkMark final_approved,
               status := overall_status }))

/-- The coarse workflow status of a unit, as the specification words it. -/
inductive WorkflowStatus where
  | complete
  | finalReviewNeeded
  | comparisonReviewNeeded
  | backtestNeeded
  | configReviewNeeded
deriving DecidableEq

/-- Status derivation as the specification words it (first match wins):
final approved, else comparison approved, else backtest complete, else
config approved, else config review needed.  A pure function of the four
flags, for comparison with the code's derivation. -/
def statusSpec (config backtest comparison final : Bool) : WorkflowStatus :=
  if final then WorkflowStatus.complete
  else if comparison then WorkflowStatus.finalReviewNeeded
  else if backtest then WorkflowStatus.comparisonReviewNeeded
  else if config then WorkflowStatus.backtestNeeded
  else WorkflowStatus.configReviewNeeded

/-- The display string the dashboard uses for each workflow status. -/
def statusDisplay : WorkflowStatus → String
  | WorkflowStatus.complete => "Complete"
  | WorkflowStatus.finalReviewNeeded => "Final Review Needed"
  | WorkflowStatus.comparisonReviewNeeded => "Comparison Review Needed"
  | WorkflowStatus.backtestNeeded => "Backtest Needed"
  | WorkflowStatus.configReviewNeeded => "Config Review Needed"

/-- The stage tokens `update_experiment_approval` accepts
(`src/utils/db_utils.py` line 270). -/
def validApprovalTypes : List String :=
  ["config", "comparison", "final_summary"]

/-- Embeds `update_experiment_approval` of `src/utils/db_utils.py`
(lines 253-293), the store-level single-flag update: an unknown stage
token is rejected up front (printed warning, result `False`, nothing
written); otherwise a keyed SQL `UPDATE` sets `is_approved_{type}` on the
rows matching (experiment, implementation) and the result is whether any
row matched.  Returns (new store, result). -/
def update_experiment_approval (st : Store) (experiment implementation approval_type : String)
    (approve : Bool) : Store × Bool :=
  if !(validApprovalTypes.contains approval_type) then (st, false)
  else
    let col := "is_approved_" ++ approval_type
    (st.map (fun r =>
        if rowMatches r experiment implementation then setFlag r col approve else r),
     (st.filter (fun r => rowMatches r experiment implementation)).length > 0)

/-- Stage label used in the success banners of the 2024 Refresh page
(`"Config"`, `"Comparison"`, `"Final summary"` in the `st.success`
f-strings of `src/refresh_2024.py`). -/
def stageLabel (approval_type : String) : String :=
  if approval_type == "final_summary" then "Final summary" else pyCapitalize approval_type

/-- Embeds the batch approve/revoke of the 2024 Refresh page
(`src/refresh_2024.py`, e.g. lines 138-143): loop the per-unit update
over every implementation of the experiment, discarding each per-unit
result, then report a single success banner.  The per-unit update is the
store-level `update_experiment_approval` (the page's single-flag
schema). -/
def batch_update_approval (st : Store) (experiment : String) (impls : List String)
    (approval_type : String) (approve : Bool) : Store × String :=
  (impls.foldl
     (fun acc impl => (update_experiment_approval acc experiment impl approval_type approve).1)
     st,
   stageLabel approval_type
     ++ (if approve then " approved for " else " approval revoked for ") ++ experiment)

/-- A stage action offered on the 2024 Refresh page for an experiment. -/
inductive StageAction where
  | approveConfig
  | revokeConfig
  | runBacktest
  | approveComparison
  | revokeComparison
  | approveFinal
  | revokeFinal
deriving DecidableEq

/-- Rows of an experiment
(`st.session_state.master_config_df[... == experiment]`). -/
def expRows (df : Store) (experiment : String) : Store :=
  df.filter (fun r => r.experiment == experiment)

/-- Experiment-level config approval of the 2024 Refresh page
(`all(exp_df["is_approved_config"])`, single-flag schema). -/
def exp_config_approved (df : Store) (experiment : String) : Bool :=
  (expRows df experiment).all (fun r => flagD r "is_approved_config")

/-- Experiment-level backtest completion
(`all(exp_df["is_backtest_complete"])`). -/
def exp_backtest_complete (df : Store) (experiment : String) : Bool :=
  (expRows df experiment).all (fun r => r.is_backtest_complete)

/-- Experiment-level comparison approval
(`all(exp_df["is_approved_comparison"])`). -/
def exp_comparison_approved (df : Store) (experiment : String) : Bool :=
  (expRows df experiment).all (fun r => flagD r "is_approved_comparison")

/-- Experiment-level final approval
(`all(exp_df["is_approved_final_summary"])`). -/
def exp_final_approved (df : Store) (experiment : String) : Bool :=
  (expRows df experiment).all (fun r => flagD r "is_approved_final_summary")

/-- The stage actions the 2024 Refresh page renders for an experiment,
following the conditionals of `render_2024_refresh_page`
(`src/refresh_2024.py` lines 122-272): the Approve button of a stage is
only rendered when the stage is pending and its gate holds (Run Backtest
needs config approved, Comparison Review needs the backtest complete,
Final Review needs the comparison approved); Revoke is rendered whenever
the stage is approved. -/
def availableActions (df : Store) (experiment : String) : List StageAction :=
  (if exp_config_approved df experiment then [StageAction.revokeConfig]
   else [StageAction.approveConfig])
  ++ (if exp_backtest_complete df experiment then []
      else if exp_config_approved df experiment then [StageAction.runBacktest] else [])
  ++ (if exp_comparison_approved df experiment then [StageAction.revokeComparison]
      else if exp_backtest_complete df experiment then [StageAction.approveComparison] else [])
  ++ (if exp_final_approved df experiment then [StageAction.revokeFinal]
      else if exp_comparison_approved df experiment then [StageAction.approveFinal] else [])

/-- Union of the top-level keys of all configs, in first-appearance
order (`all_keys` in `create_comparison_dataframe`, `src/utils.py` lines
114-117; the source collects them in a Python set, so only membership is
meaningful downstream). -/
def allKeys (configs : List (String × Config)) : List String :=
  uniqueFirst (configs.flatMap (fun c => c.2.map Prod.fst))

/-- A cell of the top-level comparison DataFrame
(`create_comparison_dataframe`, `src/utils.py` lines 119-132): the
config's value at the key, with a nested dict replaced by the sentinel
string `"[dict]"`; an absent key yields a missing cell (`None`). -/
def displayCell (c : Config) (k : String) : Option ConfigValue :=
  match dictGet c k with
  | some (ConfigValue.vdict _) => some (ConfigValue.vstr "[dict]")
  | v => v

/-- The canonical strings of the non-missing cells of a row of the
comparison table (`set(str(val) for val in row if not pd.isna(val))` in
`src/app.py` line 242). -/
def rowCellStrings (configs : List (String × Config)) (k : String) : List String :=
  (configs.map (fun c => displayCell c.2 k)).filterMap (fun o => o.map pyStr)

/-- Embeds `rows_with_diffs` of `src/app.py` (lines 237-244): when more
than one config is loaded, the rows whose non-missing cells show more
than one distinct string; otherwise no row is flagged. -/
def rows_with_diffs (configs : List (String × Config)) : List String :=
  if configs.length > 1 then
    (allKeys configs).filter (fun k => (rowCellStrings configs k).dedup.length > 1)
  else []

/-- Embeds `nested_dict_params[key]` of `src/app.py` (lines 227-235)
for one top-level key: the configs whose value at the key is a nested
dict, with their nested entries, in config order. -/
def nestedOwners (configs : List (String × Config)) (key : String) :
    List (String × Config) :=
  configs.filterMap (fun c =>
    match dictGet c.2 key with
    | some (ConfigValue.vdict es) => some (c.1, es)
    | _ => none)

/-- Whether a config holds a nested dict at a key. -/
def isNestedAt (c : Config) (key : String) : Bool :=
  match dictGet c key with
  | some (ConfigValue.vdict _) => true
  | _ => false

/-- The columns of the secondary (drill-down) comparison table for a
key: the config ids of `nested_dict_params[key]` (`nested_data` in
`src/app.py` lines 318-325 iterates exactly those). -/
def nestedColumns (configs : List (String × Config)) (key : String) : List String :=
  (nestedOwners configs key).map Prod.fst

/-- Union of the nested keys across the configs owning a nested dict at
the key (`all_nested_keys`, `src/app.py` lines 313-315; a Python set in
the source). -/
def nestedKeys (configs : List (String × Config)) (key : String) : List String :=
  uniqueFirst ((nestedOwners configs key).flatMap (fun c => c.2.map Prod.fst))

/-- The canonical strings of the non-missing cells of a row of the
nested comparison table (`src/app.py` line 332; cells are
`nested_dict.get(key, None)`, with no sentinel substitution). -/
def nestedCellStrings (configs : List (String × Config)) (key k : String) : List String :=
  ((nestedOwners configs key).map (fun c => dictGet c.2 k)).filterMap (fun o => o.map pyStr)

/-- Embeds `nested_rows_with_diffs` of `src/app.py` (lines 327-334),
with the same more-than-one-column guard as the top-level table. -/
def nested_rows_with_diffs (configs : List (String × Config)) (key : String) : List String :=
  if (nestedOwners configs key).length > 1 then
    (nestedKeys configs key).filter
      (fun k => (nestedCellStrings configs key k).dedup.length > 1)
  else []

/-- Concrete test row for the witnesses and counterexamples below. -/
def mkRow (e i : String) (bt : Bool) (apps : List (String × Bool)) : Row :=
  { experiment := e, implementation := i, univ := "US", frontier := "f1",
    backtest_name_2024 := "bt1", backtest_user_2024 := "sydney",
    is_backtest_complete := bt, approvals := apps }

/-- The six approval columns of the dual-reviewer schema
(`src/sample_data.py` `data_columns`). -/
def dualFlags (cS cJ mS mJ fS fJ : Bool) : List (String × Bool) :=
  [("is_approved_config_sydney", cS), ("is_approved_config_joey", cJ),
   ("is_approved_comparison_sydney", mS), ("is_approved_comparison_joey", mJ),
   ("is_approved_final_summary_sydney", fS), ("is_approved_final_summary_joey", fJ)]

/-- The three approval columns of the single-flag schema
(`src/utils/db_utils.py` `data_columns`). -/
def singleFlags (c m f : Bool) : List (String × Bool) :=
  [("is_approved_config", c), ("is_approved_comparison", m),
   ("is_approved_final_summary", f)]

/-- Test store: one unit, backtest not complete, nothing approved
(dual-reviewer schema). -/
def dfC1 : Store := [mkRow "e" "i" false (dualFlags false false false false false false)]

/-- Test store: one unit, config approved, backtest not complete
(single-flag schema of the 2024 Refresh page). -/
def dfC1b : Store := [mkRow "e" "i" false (singleFlags true false false)]

/-- Test store: one unit with config approved by both reviewers and the
comparison approved by sydney only. -/
def dfC2 : Store :=
  [mkRow "FXCarry" "StandardImpl" true (dualFlags true true true false false false)]

/-- Test store: one unit with config, backtest and comparison done and
the final review pending. -/
def dfC3 : Store := [mkRow "e" "i" true (dualFlags true true true true false false)]

/-- The summary row `create_summary_dataframe` produces for `dfC3`. -/
def srC3 : SummaryRow :=
  { experiment := "e", implementation := "i", universeTag := "US",
    config_approved := "✅", backtest_complete := "✅",
    comparison_approved := "✅", final_approved := "❌",
    status := "Final Review Needed" }

/-- Two configs whose only key disagrees. -/
def cfgC4 : List (String × Config) :=
  [("A", [("x", ConfigValue.vint 1)]), ("B", [("x", ConfigValue.vint 2)])]

/-- A single config (no row can ever be flagged). -/
def cfgC4single : List (String × Config) := [("A", [("x", ConfigValue.vint 1)])]

/-- Test store: one fully approved unit. -/
def dfC5 : Store := [mkRow "e" "i" true (dualFlags true true true true true true)]

/-- Two configs where only A owns a nested dict at `advanced_params`. -/
def cfgC6 : List (String × Config) :=
  [("A", [("x", ConfigValue.vint 1),
          ("advanced_params", ConfigValue.vdict [("p", ConfigValue.vint 1)])]),
   ("B", [("x", ConfigValue.vint 1)])]

/-- Test store: experiment E with rows for implementations i1, i2, i3. -/
def stC7A : Store :=
  [mkRow "E" "i1" true (singleFlags false false false),
   mkRow "E" "i2" true (singleFlags false false false),
   mkRow "E" "i3" true (singleFlags false false false)]

/-- Test store: experiment E with rows for i1 and i3 only, so the write
targeting i2 fails (no row matched). -/
def stC7B : Store :=
  [mkRow "E" "i1" true (singleFlags false false false),
   mkRow "E" "i3" true (singleFlags false false false)]

/-- Stale session snapshot: neither unit has any approval. -/
def sessC8 : Store :=
  [mkRow "e1" "i1" false (dualFlags false false false false false false),
   mkRow "e2" "i2" false (dualFlags false false false false false false)]

/-- Current store contents: unit (e2, i2) meanwhile got its config
approved by sydney (a concurrent write the session has not seen). -/
def persistC8 : Store :=
  [mkRow "e1" "i1" false (dualFlags false false false false false false),
   mkRow "e2" "i2" false (dualFlags true false false false false false)]

/-- Test store for the invalid-stage counterexample (dual schema). -/
def dfC9 : Store := [mkRow "e" "i" false (dualFlags false false false false false false)]

/-- Test store for the invalid-stage store-level witness (single-flag
schema). -/
def dfC9b : Store := [mkRow "e" "i" false (singleFlags false false false)]

/-- Test store with one unit, for the missing-unit reads. -/
def dfC10 : Store :=
  [mkRow "FXCarry" "StandardImpl" true (dualFlags true true false false false false)]

theorem find?_setEntry_self (l : List (String × Bool)) (col : String) (b : Bool) :
    (setEntry l col b).find? (fun p => p.1 == col) = some (col, b) := by
  induction l with
  | nil => simp [setEntry, List.find?]
  | cons p rest ih =>
    by_cases h : p.1 == col
    · simp [setEntry, h, List.find?]
    · simp only [setEntry, h, Bool.false_eq_true, if_false]
      rw [List.find?_cons_of_neg _ (by simpa using h)]
      exact ih

theorem find?_setEntry_ne (l : List (String × Bool)) (col col' : String) (b : Bool)
    (h : col' ≠ col) :
    (setEntry l col b).find? (fun p => p.1 == col')
      = l.find? (fun p => p.1 == col') := by
  induction l with
  | nil =>
    simp only [setEntry]
    rw [List.find?_cons_of_neg _ (by simpa using (beq_eq_false_iff_ne).mpr (Ne.symm h))]
  | cons p rest ih =>
    by_cases hp : p.1 == col
    · have hpcol : p.1 = col := by simpa using hp
      have hne : (col == col') = false := (beq_eq_false_iff_ne).mpr (Ne.symm h)
      have hne2 : (p.1 == col') = false := by rw [hpcol]; exact hne
      simp only [setEntry, hp, if_true]
      rw [List.find?_cons_of_neg _ (by simpa using hne),
        List.find?_cons_of_neg _ (by simpa using hne2)]
    · simp only [setEntry, hp, Bool.false_eq_true, if_false]
      by_cases hq : p.1 == col'
      · rw [List.find?_cons_of_pos _ (by simpa using hq),
          List.find?_cons_of_pos _ (by simpa using hq)]
      · rw [List.find?_cons_of_neg _ (by simpa using hq),
          List.find?_cons_of_neg _ (by simpa using hq)]
        exact ih

theorem setEntry_idem (l : List (String × Bool)) (col : String) (b : Bool) :
    setEntry (setEntry l col b) col b = setEntry l col b := by
  induction l with
  | nil => simp [setEntry]
  | cons p rest ih =>
    by_cases h : p.1 == col
    · simp [setEntry, h]
    · simp [setEntry, h, ih]

theorem getFlag_setFlag_self (r : Row) (col : String) (b : Bool) :
    getFlag (setFlag r col b) col = some b := by
  simp [getFlag, setFlag, find?_setEntry_self]

theorem getFlag_setFlag_ne (r : Row) (col col' : String) (b : Bool) (h : col' ≠ col) :
    getFlag (setFlag r col b) col' = getFlag r col' := by
  simp [getFlag, setFlag, find?_setEntry_ne _ _ _ _ h]

theorem setFlag_experiment (r : Row) (col : String) (b : Bool) :
    (setFlag r col b).experiment = r.experiment := rfl

theorem setFlag_implementation (r : Row) (col : String) (b : Bool) :
    (setFlag r col b).implementation = r.implementation := rfl

theorem setFlag_univ (r : Row) (col : String) (b : Bool) :
    (setFlag r col b).univ = r.univ := rfl

theorem setFlag_is_backtest_complete (r : Row) (col : String) (b : Bool) :
    (setFlag r col b).is_backtest_complete = r.is_backtest_complete := rfl

theorem setFlag_idem (r : Row) (col : String) (b : Bool) :
    setFlag (setFlag r col b) col b = setFlag r col b := by
  simp [setFlag, setEntry_idem]

theorem rowMatches_setFlag (r : Row) (col : String) (b : Bool) (e i : String) :
    rowMatches (setFlag r col b) e i = rowMatches r e i := rfl

theorem mem_uniqueFirst_aux (x : String) :
    ∀ (l acc : List String),
      (x ∈ l.foldl (fun acc y => if acc.contains y then acc else acc ++ [y]) acc
        ↔ x ∈ acc ∨ x ∈ l) := by
  intro l
  induction l with
  | nil => intro acc; simp
  | cons y ys ih =>
    intro acc
    rw [List.foldl_cons, ih]
    by_cases h : acc.contains y
    · have hy : y ∈ acc := List.elem_iff.mp h
      simp only [h, if_true, List.mem_cons]
      constructor
      · rintro (hx | hx)
        · exact Or.inl hx
        · exact Or.inr (Or.inr hx)
      · rintro (hx | hx | hx)
        · exact Or.inl hx
        · exact Or.inl (hx ▸ hy)
        · exact Or.inr hx
    · simp only [h, Bool.false_eq_true, if_false, List.mem_append,
        List.mem_singleton, List.mem_cons]
      tauto

theorem mem_uniqueFirst (x : String) (l : List String) :
    x ∈ uniqueFirst l ↔ x ∈ l := by
  rw [uniqueFirst, mem_uniqueFirst_aux]
  simp

theorem filter_exp_impl (df : Store) (exp impl : String) :
    (df.filter (fun r => r.experiment == exp)).filter (fun r => r.implementation == impl)
      = df.filter (fun r => rowMatches r exp impl) := by
  induction df with
  | nil => rfl
  | cons r rs ih =>
    simp only [rowMatches] at ih ⊢
    simp only [List.filter_cons]
    by_cases he : r.experiment == exp <;> by_cases hi : r.implementation == impl <;>
      simp [he, hi, List.filter_cons, ih]

theorem firstMatch_map (df : Store) (f : Row → Row)
    (hf : ∀ r, (f r).experiment = r.experiment ∧ (f r).implementation = r.implementation)
    (e i : String) :
    firstMatch (df.map f) e i = (firstMatch df e i).map f := by
  rw [firstMatch, firstMatch, ← List.head?_map]
  congr 1
  induction df with
  | nil => rfl
  | cons r rs ih =>
    have hmatch : rowMatches (f r) e i = rowMatches r e i := by
      rw [rowMatches, rowMatches, (hf r).1, (hf r).2]
    simp only [List.map_cons, List.filter_cons, hmatch]
    by_cases h : rowMatches r e i
    · simp [h, ih]
    · simp [h, ih]

theorem update_experiment_approval_store (st : Store)
    (experiment implementation approval_type : String) (approve : Bool)
    (h : approval_type ∈ validApprovalTypes) :
    (update_experiment_approval st experiment implementation approval_type approve).1
      = st.map (fun r =>
          if rowMatches r experiment implementation
          then setFlag r ("is_approved_" ++ approval_type) approve else r) := by
  have hc : validApprovalTypes.contains approval_type = true := List.elem_iff.mpr h
  simp [update_experiment_approval, hc, h]

theorem update_experiment_approval_invalid (st : Store)
    (experiment implementation approval_type : String) (approve : Bool)
    (h : approval_type ∉ validApprovalTypes) :
    update_experiment_approval st experiment implementation approval_type approve
      = (st, false) := by
  have hc : validApprovalTypes.contains approval_type = false := by
    cases hcc : validApprovalTypes.contains approval_type
    · rfl
    · exact absurd (List.elem_iff.mp hcc) h
  simp [update_experiment_approval, hc, h]

theorem batch_update_approval_store (experiment approval_type : String) (approve : Bool)
    (h : approval_type ∈ validApprovalTypes) :
    ∀ (impls : List String) (st : Store),
      (batch_update_approval st experiment impls approval_type approve).1
        = st.map (fun r =>
            if r.experiment == experiment && impls.contains r.implementation
            then setFlag r ("is_approved_" ++ approval_type) approve else r) := by
  intro impls
  induction impls with
  | nil =>
    intro st
    simp only [batch_update_approval, List.foldl_nil, List.contains_nil,
      Bool.and_false, Bool.false_eq_true, if_false]
    exact (List.map_id st).symm
  | cons i is ih =>
    intro st
    have hstep : (batch_update_approval st experiment (i :: is) approval_type approve).1
        = (batch_update_approval
            ((update_experiment_approval st experiment i approval_type approve).1)
            experiment is approval_type approve).1 := by
      simp [batch_update_approval, List.foldl_cons]
    rw [hstep, ih, update_experiment_approval_store _ _ _ _ _ h, List.map_map]
    apply List.map_congr_left
    intro r _
    simp only [Function.comp]
    by_cases hm : rowMatches r experiment i = true
    · have h2 : (r.experiment == experiment && (r.implementation == i)) = true := hm
      rcases (Bool.and_eq_true _ _).mp h2 with ⟨hE, hI⟩
      rw [if_pos hm, setFlag_experiment, setFlag_implementation, hE]
      have hcons : (i :: is).contains r.implementation = true := by
        rw [List.contains_cons, hI, Bool.true_or]
      rw [hcons, Bool.true_and, Bool.true_and, if_pos rfl]
      cases hin : is.contains r.implementation
      · rw [if_neg (by simp)]
      · rw [if_pos rfl, setFlag_idem]
    · have hmf : rowMatches r experiment i = false := by
        cases hmm : rowMatches r experiment i
        · rfl
        · exact absurd hmm hm
      rw [if_neg hm]
      cases hE : r.experiment == experiment
      · simp
      · have h2 : (r.experiment == experiment && (r.implementation == i)) = false := hmf
        rw [hE, Bool.true_and] at h2
        rw [List.contains_cons, h2, Bool.false_or]

/-- Claim C2: a stage of a unit counts as approved exactly when both
configured reviewers (sydney and joey) have flagged it true on the
unit's row; when the two reviewer flags differ (exactly one reviewer has
approved), the stage stays pending. -/
theorem stage_approved_iff_both_reviewers (df : Store) (exp impl approval_type : String)
    (r : Row) (h : firstMatch df exp impl = some r) :
    (check_both_approved df exp impl approval_type = true
      ↔ (flagD r (approvalColumn approval_type "sydney") = true
          ∧ flagD r (approvalColumn approval_type "joey") = true))
    ∧ (flagD r (approvalColumn approval_type "sydney")
        ≠ flagD r (approvalColumn approval_type "joey")
      → check_both_approved df exp impl approval_type = false) := by
  simp only [check_both_approved, h]
  refine ⟨by simp [Bool.and_eq_true], ?_⟩
  intro hne
  cases hs : flagD r (approvalColumn approval_type "sydney") <;>
    cases hj : flagD r (approvalColumn approval_type "joey") <;> simp_all

/-- Witness for C2: on a unit where only sydney has approved the
comparison, the stage is not approved. -/
theorem stage_approved_iff_both_reviewers_witness :
    check_both_approved dfC2 "FXCarry" "StandardImpl" "comparison" = false :=
  (stage_approved_iff_both_reviewers dfC2 "FXCarry" "StandardImpl" "comparison"
    (mkRow "FXCarry" "StandardImpl" true (dualFlags true true true false false false))
    (by decide)).2 (by decide)

/-- Claim C10: for a unit with no matching row in the store, the read
operations return benign defaults: `check_both_approved` is false and
`get_config_for_experiment` is the empty mapping (both are pure reads;
neither touches the store). -/
theorem missing_unit_reads_return_benign_defaults (df : Store)
    (exp impl approval_type : String) (version : Int) (advanced_params : Option Config)
    (h : firstMatch df exp impl = none) :
    check_both_approved df exp impl approval_type = false
    ∧ get_config_for_experiment df exp impl version advanced_params = [] := by
  constructor
  · simp [check_both_approved, h]
  · simp [get_config_for_experiment, h]

/-- Witness for C10 on a non-empty store and an absent unit. -/
theorem missing_unit_reads_witness :
    check_both_approved dfC10 "NoSuchExp" "NoImpl" "config" = false
    ∧ get_config_for_experiment dfC10 "NoSuchExp" "NoImpl" 3 none = [] :=
  missing_unit_reads_return_benign_defaults dfC10 "NoSuchExp" "NoImpl" "config" 3 none
    (by decide)

/-- Claim C9 counterexample: the session-level `update_approval_status`
performs no stage validation: invoked with the unknown stage token
`"deploy"` it changes the stored row (a fabricated per-user column is
written true) and reports the same success-shaped message as a valid
approval, instead of leaving the store unchanged and reporting an
invalid-stage failure. -/
theorem invalid_stage_silently_succeeds_in_session_update :
    (update_approval_status dfC9 "e" "i" "sydney" "deploy" true).1 ≠ dfC9
    ∧ ((update_approval_status dfC9 "e" "i" "sydney" "deploy" true).1.head?.map
        (fun r => getFlag r "is_approved_deploy_sydney")) = some (some true)
    ∧ (dfC9.head?.map (fun r => getFlag r "is_approved_deploy_sydney")) = some none
    ∧ (update_approval_status dfC9 "e" "i" "sydney" "deploy" true).2
        = "Deploy approved by sydney for e - i" := by
  decide

/-- Claim C9 (amended): the store-level `update_experiment_approval`
rejects an unknown stage token before touching the store: the store is
unchanged and the caller gets the failure value `false` (no fault is
raised), while the session-level update performs no such validation (see
the counterexample). -/
theorem invalid_stage_rejected_by_store_update (st : Store)
    (experiment implementation approval_type : String) (approve : Bool)
    (h : approval_type ∉ validApprovalTypes) :
    update_experiment_approval st experiment implementation approval_type approve
      = (st, false) :=
  update_experiment_approval_invalid st experiment implementation approval_type approve h

/-- Witness for the amended C9 at the token `"deploy"`. -/
theorem invalid_stage_rejected_witness :
    update_experiment_approval dfC9b "e" "i" "deploy" true = (dfC9b, false) :=
  invalid_stage_rejected_by_store_update dfC9b "e" "i" "deploy" true (by decide)

/-- Claim C8 counterexample: a flag update targeting unit (e1, i1) is
persisted by writing the whole session snapshot; the untargeted unit
(e2, i2), whose current store row has the config approved by sydney, is
overwritten with the session's stale unapproved row, so its row does not
keep the value currently in the store. -/
theorem save_overwrites_untargeted_row_with_stale :
    ((update_approval_status_full sessC8 persistC8 "e1" "i1" "sydney" "config" true).2.1[1]?
      = some (mkRow "e2" "i2" false (dualFlags false false false false false false)))
    ∧ persistC8[1]? = some (mkRow "e2" "i2" false (dualFlags true false false false false false))
    ∧ (update_approval_status_full sessC8 persistC8 "e1" "i1" "sydney" "config" true).2.1[1]?
        ≠ persistC8[1]? := by
  decide

/-- Claim C8 (amended): every session-level flag update writes the full
session snapshot over the store: the written store is the updated
session DataFrame, independent of the store's current contents, and
untargeted rows carry the session snapshot's (possibly stale) values,
not the store's. -/
theorem flag_update_writes_full_session_snapshot (sess persist persist2 : Store)
    (experiment implementation user approval_type : String) (approve : Bool) :
    ((update_approval_status_full sess persist
        experiment implementation user approval_type approve).2.1
      = (update_approval_status_full sess persist2
          experiment implementation user approval_type approve).2.1)
    ∧ ((update_approval_status_full sess persist
        experiment implementation user approval_type approve).2.1
      = (update_approval_status sess experiment implementation user approval_type approve).1)
    ∧ (∀ i : Nat, ∀ r : Row, sess[i]? = some r →
        rowMatches r experiment implementation = false →
        (update_approval_status_full sess persist
            experiment implementation user approval_type approve).2.1[i]? = some r) := by
  refine ⟨rfl, rfl, ?_⟩
  intro i r hr hm
  show (sess.map (fun r => if rowMatches r experiment implementation
      then setFlag r (approvalColumn approval_type user) approve else r))[i]? = some r
  rw [List.getElem?_map, hr, Option.map_some']
  rw [if_neg (by rw [hm]; simp)]

/-- Witness for the amended C8: the untargeted stale row of the session
is what gets written. -/
theorem flag_update_snapshot_witness :
    (update_approval_status_full sessC8 persistC8 "e1" "i1" "sydney" "config" true).2.1[1]?
      = some (mkRow "e2" "i2" false (dualFlags false false false false false false)) :=
  (flag_update_writes_full_session_snapshot sessC8 persistC8 persistC8
    "e1" "i1" "sydney" "config" true).2.2 1
    (mkRow "e2" "i2" false (dualFlags false false false false false false))
    (by decide) (by decide)

theorem check_both_approved_map (df : Store) (f : Row → Row) (t : String)
    (hf : ∀ r, (f r).experiment = r.experiment ∧ (f r).implementation = r.implementation)
    (hflag : ∀ r, flagD (f r) (approvalColumn t "sydney") = flagD r (approvalColumn t "sydney")
        ∧ flagD (f r) (approvalColumn t "joey") = flagD r (approvalColumn t "joey"))
    (e i : String) :
    check_both_approved (df.map f) e i t = check_both_approved df e i t := by
  rw [check_both_approved.eq_def, check_both_approved.eq_def, firstMatch_map df f hf]
  cases hfm : firstMatch df e i with
  | none => rfl
  | some rr =>
    rw [Option.map_some']
    dsimp only
    rw [(hflag rr).1, (hflag rr).2]

/-- Claim C5: a stage approval update (approve or revoke) changes only
the targeted (stage, reviewer) column on the targeted unit's rows: the
table keeps its length, untargeted rows are untouched, and on targeted
rows every other field and approval column — the unit key, the universe,
`is_backtest_complete` and all other stages' columns — keeps its value;
in particular, revoking config approval leaves the final-summary
approval of every unit exactly as it was (no cascade). -/
theorem update_approval_frame_no_cascade (df : Store)
    (experiment implementation user approval_type : String) (approve : Bool) :
    ((update_approval_status df experiment implementation user approval_type approve).1.length
        = df.length)
    ∧ (∀ i : Nat, ∀ r : Row, df[i]? = some r →
        ∃ r2 : Row,
          (update_approval_status df experiment implementation user approval_type approve).1[i]?
            = some r2
          ∧ (rowMatches r experiment implementation = false → r2 = r)
          ∧ r2.experiment = r.experiment ∧ r2.implementation = r.implementation
          ∧ r2.univ = r.univ ∧ r2.is_backtest_complete = r.is_backtest_complete
          ∧ (∀ col : String, col ≠ approvalColumn approval_type user →
              getFlag r2 col = getFlag r col))
    ∧ ((user = "sydney" ∨ user = "joey") → approval_type = "config" →
        ∀ e2 i2 : String,
          check_both_approved
            (update_approval_status df experiment implementation user approval_type approve).1
            e2 i2 "final_summary"
          = check_both_approved df e2 i2 "final_summary") := by
  refine ⟨List.length_map df _, ?_, ?_⟩
  · intro i r hr
    refine ⟨if rowMatches r experiment implementation
      then setFlag r (approvalColumn approval_type user) approve else r, ?_, ?_, ?_, ?_, ?_, ?_, ?_⟩
    · show (df.map (fun r => if rowMatches r experiment implementation
          then setFlag r (approvalColumn approval_type user) approve else r))[i]? = _
      rw [List.getElem?_map, hr, Option.map_some']
    · intro hm
      rw [if_neg (by rw [hm]; simp)]
    · by_cases hm : rowMatches r experiment implementation = true
      · rw [if_pos hm, setFlag_experiment]
      · rw [if_neg hm]
    · by_cases hm : rowMatches r experiment implementation = true
      · rw [if_pos hm, setFlag_implementation]
      · rw [if_neg hm]
    · by_cases hm : rowMatches r experiment implementation = true
      · rw [if_pos hm, setFlag_univ]
      · rw [if_neg hm]
    · by_cases hm : rowMatches r experiment implementation = true
      · rw [if_pos hm, setFlag_is_backtest_complete]
      · rw [if_neg hm]
    · intro col hcol
      by_cases hm : rowMatches r experiment implementation = true
      · rw [if_pos hm, getFlag_setFlag_ne _ _ _ _ hcol]
      · rw [if_neg hm]
  · intro hu ht e2 i2
    have hs : approvalColumn "final_summary" "sydney" ≠ approvalColumn approval_type user := by
      subst ht
      rcases hu with h | h <;> subst h <;> decide
    have hj : approvalColumn "final_summary" "joey" ≠ approvalColumn approval_type user := by
      subst ht
      rcases hu with h | h <;> subst h <;> decide
    have hmap : (update_approval_status df experiment implementation user approval_type approve).1
        = df.map (fun rr => if rowMatches rr experiment implementation
            then setFlag rr (approvalColumn approval_type user) approve else rr) := rfl
    rw [hmap]
    apply check_both_approved_map
    · intro rr
      by_cases hm : rowMatches rr experiment implementation = true
      · rw [if_pos hm]
        exact ⟨rfl, rfl⟩
      · rw [if_neg hm]
        exact ⟨rfl, rfl⟩
    · intro rr
      by_cases hm : rowMatches rr experiment implementation = true
      · rw [if_pos hm]
        constructor
        · simp only [flagD]
          rw [getFlag_setFlag_ne _ _ _ _ hs]
        · simp only [flagD]
          rw [getFlag_setFlag_ne _ _ _ _ hj]
      · rw [if_neg hm]
        exact ⟨rfl, rfl⟩

/-- Witness for C5: revoking the config approval of a fully approved
unit leaves its final-summary approval standing. -/
theorem update_approval_frame_witness :
    check_both_approved (update_approval_status dfC5 "e" "i" "sydney" "config" false).1
      "e" "i" "final_summary" = true :=
  ((update_approval_frame_no_cascade dfC5 "e" "i" "sydney" "config" false).2.2
      (Or.inl rfl) rfl "e" "i").trans (by decide)

/-- Claim C1 counterexample: on a unit whose backtest is not complete,
invoking the comparison approval succeeds anyway: the update operation
checks no precondition, the approval flag changes from unset to true,
and a plain success message is reported rather than any
precondition-not-met result. -/
theorem approve_unmet_precondition_sets_flag :
    unit_backtest_complete dfC1 "e" "i" = false
    ∧ ((update_approval_status dfC1 "e" "i" "sydney" "comparison" true).1.head?.map
        (fun r => flagD r "is_approved_comparison_sydney")) = some true
    ∧ (dfC1.head?.map (fun r => flagD r "is_approved_comparison_sydney")) = some false
    ∧ (update_approval_status dfC1 "e" "i" "sydney" "comparison" true).2
        = "Comparison approved by sydney for e - i" := by
  decide

/-- Claim C1 (amended): gating lives in the page, not the operation: the
2024 Refresh page does not offer a stage action whose gate is unmet — no
comparison approval while the backtest is incomplete, no final approval
while the comparison is unapproved, no backtest run while the config is
unapproved — while the underlying update performs no precondition check
(see the counterexample). -/
theorem refresh_page_gates_unmet_stage_actions (df : Store) (experiment : String) :
    (exp_backtest_complete df experiment = false →
      StageAction.approveComparison ∉ availableActions df experiment)
    ∧ (exp_comparison_approved df experiment = false →
      StageAction.approveFinal ∉ availableActions df experiment)
    ∧ (exp_config_approved df experiment = false →
      StageAction.runBacktest ∉ availableActions df experiment) := by
  refine ⟨?_, ?_, ?_⟩ <;>
    · intro h
      unfold availableActions
      cases h1 : exp_config_approved df experiment <;>
        cases h2 : exp_backtest_complete df experiment <;>
          cases h3 : exp_comparison_approved df experiment <;>
            cases h4 : exp_final_approved df experiment <;>
              simp_all

/-- Witness for the amended C1: with config approved and the backtest
incomplete, the page does not offer the comparison approval. -/
theorem refresh_page_gates_witness :
    StageAction.approveComparison ∉ availableActions dfC1b "e" :=
  (refresh_page_gates_unmet_stage_actions dfC1b "e").1 (by decide)

/-- Claim C4: a row of the comparison table is flagged as differing
exactly when it is a row of the table (a key of some config) and the
distinct canonical strings of its non-missing cells number more than
one; with an empty or single-config input no row is ever flagged. -/
theorem row_flagged_iff_multiple_distinct_values
    (configs : List (String × Config)) (k : String) :
    (k ∈ rows_with_diffs configs
      ↔ k ∈ allKeys configs ∧ 1 < (rowCellStrings configs k).dedup.length)
    ∧ (configs.length ≤ 1 → rows_with_diffs configs = []) := by
  constructor
  · rw [rows_with_diffs]
    by_cases hlen : configs.length > 1
    · rw [if_pos hlen, List.mem_filter]
      simp [decide_eq_true_eq]
    · rw [if_neg hlen]
      simp only [List.not_mem_nil, false_iff, not_and]
      intro _ hlt
      have h1 : (rowCellStrings configs k).length ≤ configs.length := by
        rw [rowCellStrings]
        calc ((configs.map (fun c => displayCell c.2 k)).filterMap
                (fun o => o.map pyStr)).length
            ≤ (configs.map (fun c => displayCell c.2 k)).length :=
              List.length_filterMap_le _ _
          _ = configs.length := List.length_map _ _
      have h2 : (rowCellStrings configs k).dedup.length
          ≤ (rowCellStrings configs k).length :=
        (List.dedup_sublist _).length_le
      omega
  · intro hle
    rw [rows_with_diffs, if_neg (by omega)]

/-- Witness for C4: a two-config row with values 1 vs 2 is flagged; a
single-config table flags nothing. -/
theorem row_flagged_witness :
    "x" ∈ rows_with_diffs cfgC4 ∧ rows_with_diffs cfgC4single = [] :=
  ⟨(row_flagged_iff_multiple_distinct_values cfgC4 "x").1.mpr (by decide),
   (row_flagged_iff_multiple_distinct_values cfgC4single "x").2 (by decide)⟩

/-- Claim C6 counterexample: config B lacks the key `advanced_params`,
and the drill-down table for that key has only column A — B contributes
no column at all, rather than an all-missing one, so the column set is
not the full config set. -/
theorem nested_columns_omit_lacking_configs :
    nestedColumns cfgC6 "advanced_params" = ["A"]
    ∧ cfgC6.map Prod.fst = ["A", "B"]
    ∧ nestedColumns cfgC6 "advanced_params" ≠ cfgC6.map Prod.fst := by
  decide

/-- Claim C6 (amended): the drill-down table for a key is scoped to the
configs owning a nested mapping at that key: its columns are exactly
those configs in order, its rows are the union of their nested keys, and
a row is flagged differing exactly when its non-missing cells show more
than one distinct canonical string. -/
theorem nested_table_scoped_to_owner_configs
    (configs : List (String × Config)) (key k : String) :
    (nestedColumns configs key
      = (configs.filter (fun c => isNestedAt c.2 key)).map Prod.fst)
    ∧ (k ∈ nestedKeys configs key
      ↔ ∃ p ∈ nestedOwners configs key, k ∈ p.2.map Prod.fst)
    ∧ (k ∈ nested_rows_with_diffs configs key
      ↔ k ∈ nestedKeys configs key
        ∧ 1 < (nestedCellStrings configs key k).dedup.length) := by
  refine ⟨?_, ?_, ?_⟩
  · rw [nestedColumns]
    induction configs with
    | nil => rfl
    | cons c cs ih =>
      simp only [nestedOwners, List.filterMap_cons, List.filter_cons, isNestedAt] at ih ⊢
      cases hv : dictGet c.2 key with
      | none => simpa [hv] using ih
      | some v => cases v <;> simpa [hv] using ih
  · rw [nestedKeys, mem_uniqueFirst, List.mem_flatMap]
  · rw [nested_rows_with_diffs]
    by_cases hlen : (nestedOwners configs key).length > 1
    · rw [if_pos hlen, List.mem_filter]
      simp [decide_eq_true_eq]
    · rw [if_neg hlen]
      simp only [List.not_mem_nil, false_iff, not_and]
      intro _ hlt
      have h1 : (nestedCellStrings configs key k).length
          ≤ (nestedOwners configs key).length := by
        rw [nestedCellStrings]
        calc (((nestedOwners configs key).map (fun c => dictGet c.2 k)).filterMap
                (fun o => o.map pyStr)).length
            ≤ ((nestedOwners configs key).map (fun c => dictGet c.2 k)).length :=
              List.length_filterMap_le _ _
          _ = (nestedOwners configs key).length := List.length_map _ _
      have h2 : (nestedCellStrings configs key k).dedup.length
          ≤ (nestedCellStrings configs key k).length :=
        (List.dedup_sublist _).length_le
      omega

/-- Claim C7 counterexample: the batch approve reports the identical
plain success banner whether every unit's store write succeeded (store
A) or the write for i2 failed (store B has no row for i2; the discarded
per-unit result is false): the caller gets no per-unit outcome list,
only a fixed success message, while the successful units in store B do
carry the new flag. -/
theorem batch_failure_reports_plain_success :
    (batch_update_approval stC7A "E" ["i1", "i2", "i3"] "config" true).2
      = (batch_update_approval stC7B "E" ["i1", "i2", "i3"] "config" true).2
    ∧ (update_experiment_approval stC7B "E" "i2" "config" true).2 = false
    ∧ (batch_update_approval stC7B "E" ["i1", "i2", "i3"] "config" true).1
      = [mkRow "E" "i1" true (singleFlags true false false),
         mkRow "E" "i3" true (singleFlags true false false)]
    ∧ (batch_update_approval stC7A "E" ["i1", "i2", "i3"] "config" true).2
      = "Config approved for E" := by
  decide

/-- Claim C7 (amended): the batch loop applies each unit's update
independently — every row of a targeted unit gets the new flag value and
every other row is untouched, regardless of what happened on the other
units — but the per-unit results are discarded: the reported message is
a fixed success banner carrying no per-unit outcomes. -/
theorem batch_updates_independent_no_outcome_list (st : Store) (experiment : String)
    (impls : List String) (approval_type : String) (approve : Bool)
    (h : approval_type ∈ validApprovalTypes) :
    ((batch_update_approval st experiment impls approval_type approve).2
      = stageLabel approval_type
        ++ (if approve then " approved for " else " approval revoked for ") ++ experiment)
    ∧ (∀ i : Nat, ∀ r : Row, st[i]? = some r →
        ((r.experiment = experiment ∧ r.implementation ∈ impls →
          (batch_update_approval st experiment impls approval_type approve).1[i]?
            = some (setFlag r ("is_approved_" ++ approval_type) approve))
        ∧ (¬(r.experiment = experiment ∧ r.implementation ∈ impls) →
          (batch_update_approval st experiment impls approval_type approve).1[i]?
            = some r))) := by
  refine ⟨rfl, ?_⟩
  intro i r hr
  rw [batch_update_approval_store experiment approval_type approve h impls st,
    List.getElem?_map, hr, Option.map_some']
  constructor
  · intro hP
    have hb : (r.experiment == experiment && impls.contains r.implementation) = true := by
      have h1 : (r.experiment == experiment) = true := by simpa using hP.1
      have h2 : impls.contains r.implementation = true := List.elem_iff.mpr hP.2
      rw [h1, h2, Bool.and_self]
    rw [if_pos hb]
  · intro hnP
    have hb : ¬((r.experiment == experiment && impls.contains r.implementation) = true) := by
      intro hb2
      rcases (Bool.and_eq_true _ _).mp hb2 with ⟨h1, h2⟩
      exact hnP ⟨by simpa using h1, List.elem_iff.mp h2⟩
    rw [if_neg hb]

/-- Witness for the amended C7: in store B (write for i2 fails), unit i1
still gets the new flag. -/
theorem batch_updates_independent_witness :
    (batch_update_approval stC7B "E" ["i1", "i2", "i3"] "config" true).1[0]?
      = some (setFlag (mkRow "E" "i1" true (singleFlags false false false))
          "is_approved_config" true) :=
  ((batch_updates_independent_no_outcome_list stC7B "E" ["i1", "i2", "i3"] "config" true
      (by decide)).2 0 (mkRow "E" "i1" true (singleFlags false false false))
      (by decide)).1 ⟨rfl, by decide⟩

/-- Claim C3: every row of the summary table carries the status computed
as a pure function of the unit's four workflow flags by the first-match
priority cascade (final, comparison, backtest, config), and the status
is Complete exactly when the final summary is approved. -/
theorem summary_status_first_match_priority (df : Store) (e : SummaryRow)
    (he : e ∈ create_summary_dataframe df) :
    e.status = statusDisplay (statusSpec
        (check_both_approved df e.experiment e.implementation "config")
        (unit_backtest_complete df e.experiment e.implementation)
        (check_both_approved df e.experiment e.implementation "comparison")
        (check_both_approved df e.experiment e.implementation "final_summary"))
    ∧ (e.status = "Complete"
        ↔ check_both_approved df e.experiment e.implementation "final_summary" = true) := by
  rw [create_summary_dataframe, List.mem_flatMap] at he
  obtain ⟨experiment, hexp, he2⟩ := he
  rw [List.mem_filterMap] at he2
  obtain ⟨impl, himpl, heq⟩ := he2
  cases hh : ((df.filter (fun r => r.experiment == experiment)).filter
      (fun r => r.implementation == impl)).head? with
  | none =>
    rw [hh] at heq
    exact absurd heq (by simp)
  | some r0 =>
    rw [hh] at heq
    simp only [Option.some.injEq] at heq
    subst heq
    have hfm : firstMatch df experiment impl = some r0 := by
      rw [firstMatch, ← filter_exp_impl, hh]
    have hb : unit_backtest_complete df experiment impl = r0.is_backtest_complete := by
      rw [unit_backtest_complete, hfm]
    dsimp only
    rw [hb]
    constructor
    · cases check_both_approved df experiment impl "final_summary" <;>
        cases check_both_approved df experiment impl "comparison" <;>
          cases r0.is_backtest_complete <;>
            cases check_both_approved df experiment impl "config" <;> rfl
    · cases h4 : check_both_approved df experiment impl "final_summary" <;>
        cases h3 : check_both_approved df experiment impl "comparison" <;>
          cases hb2 : r0.is_backtest_complete <;>
            cases h1 : check_both_approved df experiment impl "config" <;>
              simp_all

/-- Witness for C3 on a unit pending only its final review. -/
theorem summary_status_witness :
    srC3.status = statusDisplay (statusSpec
        (check_both_approved dfC3 "e" "i" "config")
        (unit_backtest_complete dfC3 "e" "i")
        (check_both_approved dfC3 "e" "i" "comparison")
        (check_both_approved dfC3 "e" "i" "final_summary"))
    ∧ (srC3.status = "Complete"
        ↔ check_both_approved dfC3 "e" "i" "final_summary" = true) :=
  summary_status_first_match_priority dfC3 srC3 (by decide)

end BabyBob
